import Mathlib

/-!
Verification of the QR bulk-generation pipeline (`src/main.py`, `src/qr_images.py`).

The development shallowly embeds the pipeline:
* the finder-pattern styler (`fill_rect`, `replace_finder_pattern`,
  `stylize_finder_patterns`) as functions over an abstract bitmap
  `Nat → Nat → Color`;
* the per-row processing (`process_row`) and batch/archive logic
  (`process_batch`, `zip_and_cleanup`) as explicit state passing over a
  `PState` record, with fallible steps (ragged-row indexing, image
  synthesis) reflected as `Option`-valued outcomes;
* the shared seen-ID set and its concurrency behaviour as a small
  interleaving machine (`Dedup`), where one scheduler step executes one
  atomic region of a thread (the unlocked membership test, or the locked
  insert) exactly as the source orders them.
-/

/-! ## Finder-pattern styler (src/main.py lines 38-83, src/qr_images.py lines 32-71) -/

/-- RGBA color, one component per channel. -/
abbrev Color := Nat × Nat × Nat × Nat

def FOREGROUND_COLOR : Color := (10, 35, 96, 255)

def EYEBALL_COLOR : Color := (90, 166, 219, 255)

def BACKGROUND_COLOR : Color := (255, 255, 255, 255)

/-- A bitmap, as a total assignment of a color to every pixel coordinate. -/
abbrev Image := Nat → Nat → Color

/-- `is_finder_pattern_module` from the source: outer ring or central 3x3. -/
def is_finder_pattern_module (x y : Nat) : Bool :=
  (x == 0 || x == 6 || y == 0 || y == 6) || decide (2 ≤ x ∧ x ≤ 4 ∧ 2 ≤ y ∧ y ≤ 4)

/-- `is_eyeball` from the source: both coordinates in the central 3x3 block. -/
def is_eyeball (x y : Nat) : Bool :=
  decide (2 ≤ x ∧ x ≤ 4 ∧ 2 ≤ y ∧ y ≤ 4)

/-- `fill_rect`: solidly fill the axis-aligned rectangle of `width * height`
pixels whose top-left corner is `(x, y)`.  The source passes the inclusive
corner `x + width - 1` to the drawing library, which for positive width is the
half-open range used here. -/
def fill_rect (img : Image) (x y width height : Nat) (c : Color) : Image :=
  fun px py =>
    if x ≤ px ∧ px < x + width ∧ y ≤ py ∧ py < y + height then c else img px py

/-- The color the source selects for local module `(col, row)` of a styled
finder pattern (the conditional expression in `replace_finder_pattern`). -/
def finder_fill_color (col row : Nat) : Color :=
  if is_eyeball col row then EYEBALL_COLOR
  else if is_finder_pattern_module col row then FOREGROUND_COLOR
  else BACKGROUND_COLOR

/-- The 49 local modules `(col, row)` of a 7x7 finder pattern, in the order
the source's nested loops visit them (rows outer, columns inner). -/
def finderModules : List (Nat × Nat) :=
  (List.range 7).flatMap (fun row => (List.range 7).map (fun col => (col, row)))

/-- One iteration of the inner loop body of `replace_finder_pattern`. -/
def fillModule (tlx tly ms : Nat) (im : Image) (cr : Nat × Nat) : Image :=
  fill_rect im (tlx + cr.1 * ms) (tly + cr.2 * ms) ms ms (finder_fill_color cr.1 cr.2)

/-- `replace_finder_pattern`: repaint the 7x7 module block anchored at pixel
`(top_left_x, top_left_y)`, one solid `module_size`-sized square per module. -/
def replace_finder_pattern (img : Image) (top_left_x top_left_y module_size : Nat) : Image :=
  finderModules.foldl (fillModule top_left_x top_left_y module_size) img

/-- `module_size = width // (qr_matrix_size + 2 * border)` from
`stylize_finder_patterns`. -/
def stylize_module_size (width qr_matrix_size border : Nat) : Nat :=
  width / (qr_matrix_size + 2 * border)

/-- The three corner anchors computed by `stylize_finder_patterns`
(top-left, top-right, bottom-left). -/
def stylize_positions (width qr_matrix_size border : Nat) : List (Nat × Nat) :=
  let ms := stylize_module_size width qr_matrix_size border
  let offset := border * ms
  [(offset, offset),
   (width - offset - 7 * ms, offset),
   (offset, width - offset - 7 * ms)]

/-- `stylize_finder_patterns`: restyle the three corner finder patterns. -/
def stylize_finder_patterns (img : Image) (width qr_matrix_size border : Nat) : Image :=
  (stylize_positions width qr_matrix_size border).foldl
    (fun im pos => replace_finder_pattern im pos.1 pos.2
      (stylize_module_size width qr_matrix_size border))
    img

/-- Modelled from the spec: the module-grid side length produced by the
external QR encoder for symbol version `v` (the encoder itself is an external
library, not part of `src/`); the QR standard fixes it to `17 + 4 * v`,
so version 4 has a 33-module side. -/
def qr_matrix_size (v : Nat) : Nat := 17 + 4 * v

/-- Modelled from the spec: the standard finder-pattern topology — a module is
dark iff it lies on the outer 7x7 border ring or in the central 3x3 block. -/
def standard_finder_dark (x y : Nat) : Prop :=
  (x = 0 ∨ x = 6 ∨ y = 0 ∨ y = 6) ∨ (2 ≤ x ∧ x ≤ 4 ∧ 2 ≤ y ∧ y ≤ 4)

instance (x y : Nat) : Decidable (standard_finder_dark x y) := by
  unfold standard_finder_dark; infer_instance

/-! ### Styler lemmas -/

/-- The pixel rectangle that module `cr` occupies. -/
def moduleCovers (tlx tly ms : Nat) (cr : Nat × Nat) (px py : Nat) : Prop :=
  tlx + cr.1 * ms ≤ px ∧ px < tlx + cr.1 * ms + ms ∧
  tly + cr.2 * ms ≤ py ∧ py < tly + cr.2 * ms + ms

theorem fillModule_of_covers (tlx tly ms : Nat) (im : Image) (cr : Nat × Nat)
    (px py : Nat) (h : moduleCovers tlx tly ms cr px py) :
    fillModule tlx tly ms im cr px py = finder_fill_color cr.1 cr.2 := by
  simp only [fillModule, fill_rect, moduleCovers] at *
  rw [if_pos]
  omega

theorem fillModule_of_not_covers (tlx tly ms : Nat) (im : Image) (cr : Nat × Nat)
    (px py : Nat) (h : ¬ moduleCovers tlx tly ms cr px py) :
    fillModule tlx tly ms im cr px py = im px py := by
  simp only [fillModule, fill_rect, moduleCovers] at *
  rw [if_neg]
  omega

/-- A pixel strictly inside the `ms`-sized band of index `c` lies in the band
of index `c'` only when `c' = c`. -/
theorem band_index_unique (ms c c' a dx : Nat) (_hms : 0 < ms) (hdx : dx < ms)
    (h1 : a + c' * ms ≤ a + c * ms + dx) (h2 : a + c * ms + dx < a + c' * ms + ms) :
    c' = c := by
  have h1' : c' * ms ≤ c * ms + dx := by omega
  have h2' : c * ms + dx < c' * ms + ms := by omega
  have hcc : c * ms < (c' + 1) * ms := by
    calc c * ms ≤ c * ms + dx := Nat.le_add_right _ _
    _ < c' * ms + ms := h2'
    _ = (c' + 1) * ms := by ring
  have hc1 : c < c' + 1 := Nat.lt_of_mul_lt_mul_right hcc
  have hcc' : c' * ms < (c + 1) * ms := by
    calc c' * ms ≤ c * ms + dx := h1'
    _ < c * ms + ms := by omega
    _ = (c + 1) * ms := by ring
  have hc2 : c' < c + 1 := Nat.lt_of_mul_lt_mul_right hcc'
  omega

/-- Uniqueness of the covering module for a pixel inside module `(c, r)`. -/
theorem moduleCovers_unique (tlx tly ms c r dx dy : Nat) (cr : Nat × Nat)
    (hms : 0 < ms) (hdx : dx < ms) (hdy : dy < ms)
    (h : moduleCovers tlx tly ms cr (tlx + c * ms + dx) (tly + r * ms + dy)) :
    cr = (c, r) := by
  obtain ⟨h1, h2, h3, h4⟩ := h
  have hx := band_index_unique ms c cr.1 tlx dx hms hdx h1 h2
  have hy := band_index_unique ms r cr.2 tly dy hms hdy h3 h4
  exact Prod.ext hx hy

/-- Frame lemma: a fold of module fills leaves untouched any pixel outside
all of the filled modules. -/
theorem foldl_fillModule_frame (tlx tly ms : Nat) (L : List (Nat × Nat))
    (im : Image) (px py : Nat)
    (h : ∀ cr ∈ L, ¬ moduleCovers tlx tly ms cr px py) :
    L.foldl (fillModule tlx tly ms) im px py = im px py := by
  induction L generalizing im with
  | nil => rfl
  | cons hd tl ih =>
    rw [List.foldl_cons, ih _ (fun cr hcr => h cr (List.mem_cons_of_mem hd hcr)),
      fillModule_of_not_covers _ _ _ _ _ _ _ (h hd (List.mem_cons_self hd tl))]

/-- Constancy lemma: if a pixel already holds `c0` and every module of `L`
that covers it would repaint it to `c0`, the fold leaves it at `c0`. -/
theorem foldl_fillModule_const (tlx tly ms : Nat) (L : List (Nat × Nat))
    (im : Image) (px py : Nat) (c0 : Color) (him : im px py = c0)
    (h : ∀ cr ∈ L, moduleCovers tlx tly ms cr px py → finder_fill_color cr.1 cr.2 = c0) :
    L.foldl (fillModule tlx tly ms) im px py = c0 := by
  induction L generalizing im with
  | nil => exact him
  | cons hd tl ih =>
    rw [List.foldl_cons]
    refine ih _ ?_ (fun cr hcr => h cr (List.mem_cons_of_mem hd hcr))
    by_cases hc : moduleCovers tlx tly ms hd px py
    · rw [fillModule_of_covers _ _ _ _ _ _ _ hc]
      exact h hd (List.mem_cons_self hd tl) hc
    · rw [fillModule_of_not_covers _ _ _ _ _ _ _ hc]
      exact him

theorem mem_finderModules (c r : Nat) (hc : c < 7) (hr : r < 7) :
    (c, r) ∈ finderModules := by
  simp only [finderModules, List.mem_flatMap, List.mem_map, List.mem_range]
  exact ⟨r, hr, c, hc, rfl⟩

/-- Pointwise description of `replace_finder_pattern`: the pixel `dx, dy`
inside local module `(c, r)` ends up exactly at that module's fill color. -/
theorem replace_finder_pattern_pixel (img : Image) (tlx tly ms c r dx dy : Nat)
    (hms : 0 < ms) (hc : c < 7) (hr : r < 7) (hdx : dx < ms) (hdy : dy < ms) :
    replace_finder_pattern img tlx tly ms (tlx + c * ms + dx) (tly + r * ms + dy)
      = finder_fill_color c r := by
  obtain ⟨L1, L2, hsplit⟩ := List.append_of_mem (mem_finderModules c r hc hr)
  unfold replace_finder_pattern
  rw [hsplit, List.foldl_append, List.foldl_cons]
  refine foldl_fillModule_const tlx tly ms L2 _ _ _ _ ?_ ?_
  · exact fillModule_of_covers tlx tly ms _ (c, r) _ _ (by
      dsimp only [moduleCovers]; omega)
  · intro cr _ hcov
    have := moduleCovers_unique tlx tly ms c r dx dy cr hms hdx hdy hcov
    rw [this]

/-- The source's fill-color selection agrees with the classification stated in
the spec: accent on the central 3x3, primary foreground on the border ring,
background elsewhere. -/
theorem finder_fill_color_eq_spec (c r : Nat) :
    finder_fill_color c r =
      (if 2 ≤ c ∧ c ≤ 4 ∧ 2 ≤ r ∧ r ≤ 4 then EYEBALL_COLOR
       else if c = 0 ∨ c = 6 ∨ r = 0 ∨ r = 6 then FOREGROUND_COLOR
       else BACKGROUND_COLOR) := by
  unfold finder_fill_color is_eyeball is_finder_pattern_module
  by_cases h1 : 2 ≤ c ∧ c ≤ 4 ∧ 2 ≤ r ∧ r ≤ 4
  · simp [h1]
  · by_cases h2 : c = 0 ∨ c = 6 ∨ r = 0 ∨ r = 6
    · have hc : (c == 0 || c == 6 || r == 0 || r == 6) = true := by
        rcases h2 with h | h | h | h <;> simp [h]
      simp [h1, h2, hc]
    · have hc : (c == 0 || c == 6 || r == 0 || r == 6) = false := by
        push_neg at h2
        simp only [Bool.or_eq_false_iff, beq_eq_false_iff_ne, ne_eq]
        tauto
      simp [h1, h2, hc]

theorem finder_fill_color_ne_background_iff (c r : Nat) :
    finder_fill_color c r ≠ BACKGROUND_COLOR ↔ standard_finder_dark c r := by
  rw [finder_fill_color_eq_spec]
  unfold standard_finder_dark
  by_cases h1 : 2 ≤ c ∧ c ≤ 4 ∧ 2 ≤ r ∧ r ≤ 4
  · rw [if_pos h1]
    exact ⟨fun _ => Or.inr h1, fun _ => by decide⟩
  · rw [if_neg h1]
    by_cases h2 : c = 0 ∨ c = 6 ∨ r = 0 ∨ r = 6
    · rw [if_pos h2]
      exact ⟨fun _ => Or.inl h2, fun _ => by decide⟩
    · rw [if_neg h2]
      exact ⟨fun h => absurd rfl h, fun h => absurd (h.resolve_left h2) h1⟩

/-! ### Claims C3 and C4 -/

/-- C3: for every positive module size and every anchor, `replace_finder_pattern`
fills each pixel of each of the 49 cells of the 7x7 grid solidly with the color
the spec's classification demands — accent (eyeball) iff both local coordinates
are in [2,4], primary foreground (ring) iff some local coordinate is 0 or 6,
background otherwise — and the dark/light module topology of the styled region
equals the standard finder-pattern topology. -/
theorem replace_finder_pattern_classification (img : Image)
    (tlx tly ms c r dx dy : Nat) (hms : 0 < ms) (hc : c < 7) (hr : r < 7)
    (hdx : dx < ms) (hdy : dy < ms) :
    replace_finder_pattern img tlx tly ms (tlx + c * ms + dx) (tly + r * ms + dy)
        = (if 2 ≤ c ∧ c ≤ 4 ∧ 2 ≤ r ∧ r ≤ 4 then EYEBALL_COLOR
           else if c = 0 ∨ c = 6 ∨ r = 0 ∨ r = 6 then FOREGROUND_COLOR
           else BACKGROUND_COLOR) ∧
      (replace_finder_pattern img tlx tly ms (tlx + c * ms + dx) (tly + r * ms + dy)
          ≠ BACKGROUND_COLOR ↔ standard_finder_dark c r) := by
  have h := replace_finder_pattern_pixel img tlx tly ms c r dx dy hms hc hr hdx hdy
  constructor
  · rw [h]
    exact finder_fill_color_eq_spec c r
  · rw [h]
    exact finder_fill_color_ne_background_iff c r

/-- Witness for C3: the classification evaluated at a concrete anchor (5, 3),
module size 2, local module (1, 0) (a ring module), pixel offset (1, 0). -/
theorem replace_finder_pattern_classification_witness :
    0 < 2 ∧ 1 < 7 ∧ 0 < 7 ∧ 1 < 2 ∧ 0 < 2 ∧
      (replace_finder_pattern (fun _ _ => (0, 0, 0, 0)) 5 3 2 (5 + 1 * 2 + 1) (3 + 0 * 2 + 0)
          = (if 2 ≤ 1 ∧ 1 ≤ 4 ∧ 2 ≤ 0 ∧ 0 ≤ 4 then EYEBALL_COLOR
             else if 1 = 0 ∨ 1 = 6 ∨ 0 = 0 ∨ 0 = 6 then FOREGROUND_COLOR
             else BACKGROUND_COLOR) ∧
        (replace_finder_pattern (fun _ _ => (0, 0, 0, 0)) 5 3 2 (5 + 1 * 2 + 1) (3 + 0 * 2 + 0)
            ≠ BACKGROUND_COLOR ↔ standard_finder_dark 1 0)) :=
  ⟨by decide, by decide, by decide, by decide, by decide,
   replace_finder_pattern_classification (fun _ _ => (0, 0, 0, 0)) 5 3 2 1 0 1 0
     (by decide) (by decide) (by decide) (by decide) (by decide)⟩

/-- C4 counterexample: for the program's fixed configuration (bitmap width
1700, QR version 4 hence a 33-module grid side, border 0), the divisor
`grid_size + 2 * border = 33` does NOT divide 1700 exactly, contradicting the
claimed exact integer division. -/
theorem stylize_division_not_exact :
    ¬ ((qr_matrix_size 4 + 2 * 0) ∣ 1700) ∧
      stylize_module_size 1700 (qr_matrix_size 4) 0 * (qr_matrix_size 4 + 2 * 0) ≠ 1700 := by
  decide

/-- C4 amended: the styler computes `module_size` by floor division; for the
fixed configuration this gives 51 with remainder 17 (the division is inexact),
the three corner anchors are (0,0), (1343,0), (0,1343), and the three styled
7x7 rectangles are pairwise disjoint (each spans 357 pixels and
0 + 357 <= 1343) although they are offset from the true fractional module
boundaries of the rescaled bitmap. -/
theorem stylize_division_floor :
    stylize_module_size 1700 (qr_matrix_size 4) 0 = 51 ∧
      51 * (qr_matrix_size 4 + 2 * 0) + 17 = 1700 ∧
      stylize_positions 1700 (qr_matrix_size 4) 0 = [(0, 0), (1343, 0), (0, 1343)] ∧
      0 + 7 * 51 ≤ 1343 := by
  decide

/-! ## The seen-ID set under concurrency (src/main.py lines 21-22, 173-176;
src/qr_images.py lines 16-17, 105-108)

`process_row` tests `code_id in seen_code_ids` WITHOUT holding the lock and
then performs `seen_code_ids.add(code_id)` in a separate critical section
(`with lock:`).  The machine below embeds exactly that structure: every thread
executes the membership test as one scheduler step and the locked insert
(together with the rest of its row: rendering and returning the record) as a
later separate step.  A schedule is a list of thread indices; each entry runs
the named thread's next atomic region. -/

namespace Dedup

/-- Program counter of one row-processing thread, restricted to its
interaction with the seen-ID set. -/
inductive PC where
  | atCheck
  | atInsert
  | accepted
  | rejected
deriving DecidableEq

/-- One worker thread processing a row whose resolved identifier is `codeId`. -/
structure Thread where
  codeId : String
  pc : PC
deriving DecidableEq

/-- Shared state: the threads, the process-wide seen-ID set, and the
identifiers of the records produced so far (in production order). -/
structure RunState where
  threads : List Thread
  seen : List String
  recs : List String
deriving DecidableEq

/-- One scheduler step: run one atomic region of thread `i`, exactly as the
source orders them — first the unlocked membership test
(`code_id in seen_code_ids`), then, as a separate region, the locked
`seen_code_ids.add(code_id)` followed by the production of the record. -/
def step (s : RunState) (i : Nat) : RunState :=
  match s.threads.get? i with
  | none => s
  | some t =>
    match t.pc with
    | PC.atCheck =>
        if t.codeId ∈ s.seen then
          { s with threads := s.threads.set i { t with pc := PC.rejected } }
        else
          { s with threads := s.threads.set i { t with pc := PC.atInsert } }
    | PC.atInsert =>
        { threads := s.threads.set i { t with pc := PC.accepted },
          seen := t.codeId :: s.seen,
          recs := s.recs ++ [t.codeId] }
    | _ => s

/-- Run a schedule (a list of thread indices) from a state. -/
def run (s : RunState) (sched : List Nat) : RunState :=
  sched.foldl step s

/-- Two concurrent rows that resolved to the same identifier, both about to
execute the membership test. -/
def twoRowsSameId : RunState :=
  { threads := [{ codeId := "0000042", pc := PC.atCheck },
                { codeId := "0000042", pc := PC.atCheck }],
    seen := [],
    recs := [] }

/-- Modelled from the spec: the atomic `claim` operation demanded by the spec —
membership test and insert form ONE critical section, i.e. a single scheduler
step (contrast with `Dedup.step`, the source's two separate regions). -/
def atomicStep (s : RunState) (i : Nat) : RunState :=
  match s.threads.get? i with
  | none => s
  | some t =>
    match t.pc with
    | PC.atCheck =>
        if t.codeId ∈ s.seen then
          { s with threads := s.threads.set i { t with pc := PC.rejected } }
        else
          { threads := s.threads.set i { t with pc := PC.accepted },
            seen := t.codeId :: s.seen,
            recs := s.recs ++ [t.codeId] }
    | _ => s

def atomicRun (s : RunState) (sched : List Nat) : RunState :=
  sched.foldl atomicStep s

/-- Invariant of the atomic machine: produced identifiers are distinct and all
recorded as seen. -/
def Inv (s : RunState) : Prop :=
  s.recs.Nodup ∧ ∀ r ∈ s.recs, r ∈ s.seen

theorem atomicStep_inv (s : RunState) (i : Nat) (h : Inv s) : Inv (atomicStep s i) := by
  obtain ⟨hnd, hsub⟩ := h
  cases hg : s.threads.get? i with
  | none =>
    simp only [atomicStep, hg]
    exact ⟨hnd, hsub⟩
  | some t =>
    cases hpc : t.pc with
    | atCheck =>
      by_cases hm : t.codeId ∈ s.seen
      · simp only [atomicStep, hg, hpc, if_pos hm]
        exact ⟨hnd, hsub⟩
      · simp only [atomicStep, hg, hpc, if_neg hm]
        refine ⟨?_, ?_⟩
        · simp only [List.nodup_append, List.nodup_cons, List.nodup_nil,
            List.disjoint_singleton]
          exact ⟨hnd, by simp, fun hmem => hm (hsub _ hmem)⟩
        · intro x hx
          rcases List.mem_append.mp hx with hx | hx
          · exact List.mem_cons_of_mem _ (hsub _ hx)
          · simp only [List.mem_singleton] at hx
            exact hx ▸ List.mem_cons_self _ _
    | atInsert =>
      simp only [atomicStep, hg, hpc]
      exact ⟨hnd, hsub⟩
    | accepted =>
      simp only [atomicStep, hg, hpc]
      exact ⟨hnd, hsub⟩
    | rejected =>
      simp only [atomicStep, hg, hpc]
      exact ⟨hnd, hsub⟩

theorem atomicRun_inv (sched : List Nat) (s : RunState) (h : Inv s) :
    Inv (atomicRun s sched) := by
  induction sched generalizing s with
  | nil => exact h
  | cons i rest ih => exact ih _ (atomicStep_inv s i h)

/-- With the spec's atomic claim, no schedule can produce duplicate records —
the property the source's split test/insert fails to ensure. -/
theorem atomic_claim_unique (threads : List Thread) (sched : List Nat) :
    (atomicRun { threads := threads, seen := [], recs := [] } sched).recs.Nodup :=
  (atomicRun_inv sched _ ⟨List.nodup_nil, by simp⟩).1

end Dedup

/-! ### Claims C1 and C2 -/

/-- C1 (code bug): with the source's unlocked membership test followed by a
separate locked insert, the schedule in which both rows test before either
inserts appends two records with the same `code_id` to the run's cumulative
result sequence — run-wide `code_id` uniqueness is violated. -/
theorem race_duplicate_records :
    (Dedup.run Dedup.twoRowsSameId [0, 1, 0, 1]).recs = ["0000042", "0000042"] ∧
      ¬ (Dedup.run Dedup.twoRowsSameId [0, 1, 0, 1]).recs.Nodup := by
  decide

/-- C2 (code bug): two concurrent rows presenting the same identifier can BOTH
claim it: after the schedule [0, 1, 0, 1] (both membership tests before both
locked inserts) both threads end in the accepted state, which the claimed
atomic test-and-insert would make impossible. -/
theorem check_insert_not_atomic :
    Dedup.twoRowsSameId.threads.map Dedup.Thread.codeId = ["0000042", "0000042"] ∧
      (Dedup.run Dedup.twoRowsSameId [0, 1, 0, 1]).threads.map Dedup.Thread.pc
        = [Dedup.PC.accepted, Dedup.PC.accepted] := by
  decide

/-! ## Row and batch processing (src/main.py lines 160-210, src/qr_images.py lines 100-149)

The per-batch worker pool (`executor.map`) returns row results in input order
and the batch-level state (results, archives) is only touched by the single
batch-executor thread, so batch processing is modelled as a sequential pass
over the rows (one linearization); the seen-ID race itself is analysed
separately by the `Dedup` machine above. -/

/-- A successfully generated record.  `created_at`/`updated_at` are wall-clock
timestamps outside the model; no claim concerns them. -/
structure GeneratedRecord where
  code_id : String
  ext_id : String
  qr_code_url : String
deriving DecidableEq

/-- One input row together with the environment of its processing: `gen` is
the value `generate_code_id()` would return for this row, and
`synthFail`/`synthMsg` say whether `create_qr_image` raises and with what
exception text. -/
structure RowInput where
  cells : List String
  gen : String
  synthMsg : String
  synthFail : Bool
deriving DecidableEq

/-- The process-wide mutable state the pipeline touches: the seen-ID set, the
append-only error log, the image files on disk, the cumulative result list,
and the zip archives — both the append-only log of `zip_and_cleanup`
invocations (index and records argument) and the name-indexed store of archive
contents, where opening `qr_batch_i.zip` in "w" mode overwrites any previous
archive of the same index. -/
structure PState where
  seen : List String
  errorLog : List String
  disk : List String
  results : List GeneratedRecord
  zipCalls : List (Nat × List GeneratedRecord)
  zipStore : List (Nat × List String)
deriving DecidableEq

/-- What one `process_row` call does from the caller's point of view. -/
inductive RowOutcome where
  | produced (r : GeneratedRecord)
  | skipped
  | logged
  | uncaught
deriving DecidableEq

def initState : PState :=
  { seen := [], errorLog := [], disk := [], results := [], zipCalls := [], zipStore := [] }

/-- Python `str.zfill` restricted to unsigned strings (the source applies it
to digit identifiers): left-pad with zeros to `width`. -/
def zfill (width : Nat) (s : String) : String :=
  String.mk (List.replicate (width - s.length) ('0')) ++ s

/-- Python `str.strip()`: remove whitespace from both ends. -/
def pyStrip (s : String) : String :=
  String.mk (((s.data.dropWhile Char.isWhitespace).reverse.dropWhile
    Char.isWhitespace).reverse)

/-- `os.path.basename`: the component after the last slash. -/
def basename (s : String) : String :=
  String.mk (s.data.foldl (fun acc ch => if ch = ('/') then [] else acc ++ [ch]) [])

namespace Main

/-- The structured error-log line of `process_row`'s exception handler
(src/main.py line 194): the row's raw identifiers and the exception text.  The
handler re-reads `row[wallid_idx]` and (when present) `row[posid_idx]`; it is
only reached along paths where those reads succeed, so `getD` is faithful. -/
def errLine (row : RowInput) (posid_idx : Option Nat) (wallid_idx : Nat) : String :=
  "Error for ext_id=" ++ (row.cells.getD wallid_idx ("")) ++ ", posid=" ++
    (match posid_idx with
     | none => "N/A"
     | some i => row.cells.getD i ("")) ++ ": " ++ row.synthMsg

/-- Identifier extraction (src/main.py lines 171-172): `ext_id` is the trimmed
`wallid` cell; `code_id` is the trimmed `posid` cell zero-padded to width 6
when that column is designated and the cell is non-empty, else the generated
identifier.  `none` models an `IndexError` on a too-short row — an exception
which the handler, re-reading the same cells, raises again (uncaught). -/
def extractIds (posid_idx : Option Nat) (wallid_idx : Nat) (row : RowInput) :
    Option (String × String) :=
  match row.cells.get? wallid_idx with
  | none => none
  | some wcell =>
    match posid_idx with
    | none => some (pyStrip wcell, row.gen)
    | some i =>
      match row.cells.get? i with
      | none => none
      | some pcell =>
          some (pyStrip wcell, if pyStrip pcell ≠ "" then zfill 6 (pyStrip pcell) else row.gen)

/-- `process_row` (src/main.py lines 169-195). -/
def process_row (posid_idx : Option Nat) (wallid_idx : Nat) (row : RowInput)
    (st : PState) : PState × RowOutcome :=
  match extractIds posid_idx wallid_idx row with
  | none => (st, RowOutcome.uncaught)
  | some (ext_id, code_id) =>
    if ext_id = "" ∨ code_id ∈ st.seen then (st, RowOutcome.skipped)
    else
      let st1 := { st with seen := code_id :: st.seen }
      if row.synthFail then
        ({ st1 with errorLog := st1.errorLog ++ [errLine row posid_idx wallid_idx] },
         RowOutcome.logged)
      else
        let url := "qr-records/qrs/" ++ code_id ++ ".png"
        ({ st1 with disk := st1.disk ++ [url] },
         RowOutcome.produced { code_id := code_id, ext_id := ext_id, qr_code_url := url })

/-- The worker-pool pass of `process_batch`: process every row, collect the
non-null results in order.  An uncaught exception in any row propagates out of
`executor.map` and aborts the batch (`none`). -/
def runRows (posid_idx : Option Nat) (wallid_idx : Nat) (rows : List RowInput)
    (st : PState) : Option (PState × List GeneratedRecord) :=
  match rows with
  | [] => some (st, [])
  | row :: rest =>
    match process_row posid_idx wallid_idx row st with
    | (_, RowOutcome.uncaught) => none
    | (st', RowOutcome.produced r) =>
        (runRows posid_idx wallid_idx rest st').map (fun p => (p.1, r :: p.2))
    | (st', _) => runRows posid_idx wallid_idx rest st'

/-- The loop body of `zip_and_cleanup` (src/main.py lines 163-167): walk the
records; a record whose file exists is written to the archive under its base
filename and removed from disk; a missing file is skipped.  Returns the new
disk contents and the archive entries in order. -/
def zipEntries : List String → List GeneratedRecord → List String × List String
  | disk, [] => (disk, [])
  | disk, r :: rest =>
    if r.qr_code_url ∈ disk then
      let p := zipEntries (disk.erase r.qr_code_url) rest
      (p.1, basename r.qr_code_url :: p.2)
    else zipEntries disk rest

/-- `zip_and_cleanup` (src/main.py lines 160-167): create (or overwrite — the
zip is opened in "w" mode) the archive `qr_batch_{batch_index}.zip` from the
given records.  Disk paths are compared via the record's `qr_code_url` (the
source joins it to its base directory; the written image used the same
relative path). -/
def zip_and_cleanup (st : PState) (batch_index : Nat)
    (records_batch : List GeneratedRecord) : PState :=
  let p := zipEntries st.disk records_batch
  { st with disk := p.1,
            zipCalls := st.zipCalls ++ [(batch_index, records_batch)],
            zipStore := st.zipStore.filter (fun e => e.1 != batch_index)
              ++ [(batch_index, p.2)] }

/-- `process_batch` (src/main.py lines 197-210): run the rows, append the
non-null results to the cumulative list, then archive iff the cumulative
length is a multiple of 1000, on the last-1000 slice (`results[-1000:]`),
with index `len(results) // 1000`. -/
def process_batch (posid_idx : Option Nat) (wallid_idx : Nat) (rows : List RowInput)
    (st : PState) : Option PState :=
  (runRows posid_idx wallid_idx rows st).map (fun p =>
    let st2 := { p.1 with results := p.1.results ++ p.2 }
    if st2.results.length % 1000 = 0 then
      zip_and_cleanup st2 (st2.results.length / 1000)
        (st2.results.drop (st2.results.length - 1000))
    else st2)

end Main

namespace QrImages

/-- The error-log line of the secondary pipeline's handler
(src/qr_images.py line 126). -/
def errLine (code_id : String) (msg : String) : String :=
  "Error for code_id=" ++ code_id ++ ": " ++ msg

/-- `process_row` (src/qr_images.py lines 100-127).  Differences from the main
pipeline: the `code_id` cell is the one required non-empty (no generation);
the `wall_id` cell is zero-padded to width 11 and never checked for emptiness;
a failed `code_id` lookup leaves `code_id` unbound, so the handler itself
raises (`uncaught`), while a failed `wall_id` lookup is caught and logged. -/
def process_row (codeid_idx wallid_idx : Nat) (row : RowInput) (st : PState) :
    PState × RowOutcome :=
  match row.cells.get? codeid_idx with
  | none => (st, RowOutcome.uncaught)
  | some ccell =>
    let code_id := pyStrip ccell
    match row.cells.get? wallid_idx with
    | none =>
        ({ st with errorLog := st.errorLog ++ [errLine code_id ("list index out of range")] },
         RowOutcome.logged)
    | some wcell =>
      let wall_id := zfill 11 (pyStrip wcell)
      if code_id = "" ∨ code_id ∈ st.seen then (st, RowOutcome.skipped)
      else
        let st1 := { st with seen := code_id :: st.seen }
        if row.synthFail then
          ({ st1 with errorLog := st1.errorLog ++ [errLine code_id row.synthMsg] },
           RowOutcome.logged)
        else
          let url := "qrs/" ++ code_id ++ ".png"
          ({ st1 with disk := st1.disk ++ ["qr-records/" ++ url] },
           RowOutcome.produced { code_id := code_id, ext_id := wall_id, qr_code_url := url })

end QrImages


/-! ### Claim C9 -/

/-- C9: per-file behavior of the archive operation.  With distinct record
paths and distinct disk entries, the archive receives exactly the records
whose image file exists on disk — each under its base filename, in record
order — and exactly those source files are deleted from disk; a record whose
file is missing contributes no entry and no error (`zipEntries` is a total
function, so the operation never fails on a missing file). -/
theorem zip_and_cleanup_per_file (disk : List String) (records : List GeneratedRecord)
    (hrec : (records.map GeneratedRecord.qr_code_url).Nodup) (hdisk : disk.Nodup) :
    (Main.zipEntries disk records).2
        = (records.filter (fun r => decide (r.qr_code_url ∈ disk))).map
            (fun r => basename r.qr_code_url) ∧
      (Main.zipEntries disk records).1
        = disk.filter (fun p => decide (p ∉ records.map GeneratedRecord.qr_code_url)) := by
  induction records generalizing disk with
  | nil =>
    refine ⟨rfl, ?_⟩
    simp [Main.zipEntries]
  | cons r rest ih =>
    simp only [List.map_cons, List.nodup_cons] at hrec
    obtain ⟨hhead, hrest⟩ := hrec
    have hne : ∀ x ∈ rest, x.qr_code_url ≠ r.qr_code_url := by
      intro x hx heq
      exact hhead (heq ▸ List.mem_map_of_mem GeneratedRecord.qr_code_url hx)
    by_cases hmem : r.qr_code_url ∈ disk
    · obtain ⟨ih1, ih2⟩ := ih (disk.erase r.qr_code_url) hrest (hdisk.erase _)
      have hz1 : (Main.zipEntries disk (r :: rest)).2
          = basename r.qr_code_url :: (Main.zipEntries (disk.erase r.qr_code_url) rest).2 := by
        simp only [Main.zipEntries, if_pos hmem]
      have hz2 : (Main.zipEntries disk (r :: rest)).1
          = (Main.zipEntries (disk.erase r.qr_code_url) rest).1 := by
        simp only [Main.zipEntries, if_pos hmem]
      constructor
      · rw [hz1, ih1]
        simp only [List.filter_cons, hmem, decide_True, if_true, List.map_cons,
          List.cons.injEq, true_and]
        refine congrArg _ (List.filter_congr ?_)
        intro x hx
        exact decide_eq_decide.mpr (List.mem_erase_of_ne (hne x hx))
      · rw [hz2, ih2, List.Nodup.erase_eq_filter hdisk, List.filter_filter]
        refine List.filter_congr ?_
        intro x _
        by_cases h1 : x = r.qr_code_url <;>
          by_cases h2 : x ∈ rest.map GeneratedRecord.qr_code_url <;>
            simp [h1, h2]
    · obtain ⟨ih1, ih2⟩ := ih disk hrest hdisk
      have hz1 : (Main.zipEntries disk (r :: rest)).2
          = (Main.zipEntries disk rest).2 := by
        simp only [Main.zipEntries, if_neg hmem]
      have hz2 : (Main.zipEntries disk (r :: rest)).1
          = (Main.zipEntries disk rest).1 := by
        simp only [Main.zipEntries, if_neg hmem]
      constructor
      · rw [hz1, ih1]
        simp [List.filter_cons, hmem]
      · rw [hz2, ih2]
        refine List.filter_congr ?_
        intro x hx
        have hxne : x ≠ r.qr_code_url := fun h => hmem (h ▸ hx)
        by_cases h2 : x ∈ rest.map GeneratedRecord.qr_code_url <;> simp [hxne, h2]

/-- Two concrete records: the first one's image exists in `demoDisk`, the
second one's does not. -/
def demoRecords : List GeneratedRecord :=
  [{ code_id := "7", ext_id := "A", qr_code_url := "qr-records/qrs/7.png" },
   { code_id := "8", ext_id := "B", qr_code_url := "qr-records/qrs/8.png" }]

def demoDisk : List String := ["qr-records/qrs/7.png", "qr-records/qrs/9.png"]

/-- Witness for C9 at a concrete disk and record list: the first record's file
exists and is archived under its base filename and deleted; the second
record's file is missing and is skipped. -/
theorem zip_and_cleanup_per_file_witness :
    (demoRecords.map GeneratedRecord.qr_code_url).Nodup ∧ demoDisk.Nodup ∧
    ((Main.zipEntries demoDisk demoRecords).2
        = (demoRecords.filter (fun r => decide (r.qr_code_url ∈ demoDisk))).map
            (fun r => basename r.qr_code_url) ∧
      (Main.zipEntries demoDisk demoRecords).1
        = demoDisk.filter (fun p => decide (p ∉ demoRecords.map GeneratedRecord.qr_code_url))) :=
  ⟨by decide, by decide,
   zip_and_cleanup_per_file demoDisk demoRecords (by decide) (by decide)⟩

/-! ### Batch-level lemmas -/

namespace Main

/-- `process_row` never touches the cumulative result list or the archives:
those belong to the batch executor. -/
theorem process_row_preserves (posid_idx : Option Nat) (wallid_idx : Nat)
    (row : RowInput) (st : PState) :
    (process_row posid_idx wallid_idx row st).1.zipCalls = st.zipCalls ∧
    (process_row posid_idx wallid_idx row st).1.zipStore = st.zipStore ∧
    (process_row posid_idx wallid_idx row st).1.results = st.results := by
  cases hx : extractIds posid_idx wallid_idx row with
  | none => simp [process_row, hx]
  | some p =>
    obtain ⟨e, c⟩ := p
    by_cases h : e = "" ∨ c ∈ st.seen
    · simp [process_row, hx, h]
    · cases hs : row.synthFail <;> simp [process_row, hx, h, hs]

/-- The worker-pool pass never touches the cumulative result list or the
archives either. -/
theorem runRows_preserves (posid_idx : Option Nat) (wallid_idx : Nat)
    (rows : List RowInput) :
    ∀ st st1 processed,
      runRows posid_idx wallid_idx rows st = some (st1, processed) →
        st1.zipCalls = st.zipCalls ∧ st1.zipStore = st.zipStore ∧
          st1.results = st.results := by
  induction rows with
  | nil =>
    intro st st1 processed h
    rw [runRows] at h
    obtain ⟨rfl, rfl⟩ := Prod.mk.injEq .. ▸ Option.some.injEq .. ▸ h
    exact ⟨rfl, rfl, rfl⟩
  | cons row rest ih =>
    intro st st1 processed h
    rw [runRows] at h
    have hpre := process_row_preserves posid_idx wallid_idx row st
    split at h
    · exact absurd h (by simp)
    · rename_i st' r heq
      rw [heq] at hpre
      cases hrr : runRows posid_idx wallid_idx rest st' with
      | none => rw [hrr] at h; simp at h
      | some q =>
        rw [hrr] at h
        simp only [Option.map_some', Option.some.injEq] at h
        obtain ⟨h1, _⟩ := Prod.mk.injEq .. ▸ h
        obtain ⟨i1, i2, i3⟩ := ih st' q.1 q.2 (by rw [hrr])
        exact ⟨h1 ▸ i1.trans hpre.1, h1 ▸ i2.trans hpre.2.1, h1 ▸ i3.trans hpre.2.2⟩
    · rename_i st' o himp1 himp2 heq
      rw [heq] at hpre
      obtain ⟨i1, i2, i3⟩ := ih st' st1 processed h
      exact ⟨i1.trans hpre.1, i2.trans hpre.2.1, i3.trans hpre.2.2⟩

end Main

/-- Evaluation of `process_batch` once the worker-pool pass is known. -/
theorem Main.process_batch_eq (posid_idx : Option Nat) (wallid_idx : Nat)
    (rows : List RowInput) (st st1 : PState) (processed : List GeneratedRecord)
    (h : Main.runRows posid_idx wallid_idx rows st = some (st1, processed)) :
    Main.process_batch posid_idx wallid_idx rows st
      = some (if (st1.results.length + processed.length) % 1000 = 0 then
          Main.zip_and_cleanup { st1 with results := st1.results ++ processed }
            ((st1.results.length + processed.length) / 1000)
            ((st1.results ++ processed).drop (st1.results.length + processed.length - 1000))
        else { st1 with results := st1.results ++ processed }) := by
  rw [Main.process_batch, h, Option.map_some']
  simp only [List.length_append]

/-! ### Claims C5 and C10 -/

/-- A padding record used to build a cumulative result list of a given size. -/
def padRecord : GeneratedRecord :=
  { code_id := "p", ext_id := "p", qr_code_url := "p.png" }

/-- A state in which 999 records have already accumulated. -/
def st999 : PState := { initState with results := List.replicate 999 padRecord }

def rowA : RowInput :=
  { cells := ["A"], gen := "1111111111", synthMsg := "", synthFail := false }

def rowB : RowInput :=
  { cells := ["B"], gen := "2222222222", synthMsg := "", synthFail := false }

set_option maxRecDepth 100000 in
/-- C5 counterexample: a batch moves the cumulative successful-record count
from 999 to 1001 — it crosses the multiple 1000 (999 < 1000 <= 1001) — yet
`process_batch` invokes no archival at all (`zipCalls` stays empty), because
the source tests `len(results) % 1000 == 0` rather than a crossing. -/
theorem archive_trigger_crossing_missed :
    st999.results.length = 999 ∧
      (Main.process_batch none 0 [rowA, rowB] st999).map
          (fun s => (s.results.length, s.zipCalls)) = some (1001, []) ∧
      999 < 1000 ∧ 1000 ≤ 1001 := by
  decide

/-- C5 (amended): after a batch appends its results, the Archival Cycle is
invoked iff the cumulative count is divisible by 1000 (which is NOT the same
as having just crossed a multiple: a count that lands between multiples misses
the crossing, and a count sitting at a multiple re-triggers without one); when
invoked it receives the most recent `min(1000, count)` records
(`results[-1000:]`) and the deterministic slice index `count / 1000`. -/
theorem archive_trigger_iff_multiple (posid_idx : Option Nat) (wallid_idx : Nat)
    (rows : List RowInput) (st st1 : PState) (processed : List GeneratedRecord)
    (h : Main.runRows posid_idx wallid_idx rows st = some (st1, processed)) :
    ∃ st2, Main.process_batch posid_idx wallid_idx rows st = some st2 ∧
      st2.zipCalls
        = (if (st.results.length + processed.length) % 1000 = 0 then
            st.zipCalls ++ [((st.results.length + processed.length) / 1000,
              (st.results ++ processed).drop (st.results.length + processed.length - 1000))]
          else st.zipCalls) := by
  obtain ⟨p1, _p2, p3⟩ := Main.runRows_preserves posid_idx wallid_idx rows st st1 processed h
  refine ⟨_, Main.process_batch_eq posid_idx wallid_idx rows st st1 processed h, ?_⟩
  rw [p3]
  by_cases hmod : (st.results.length + processed.length) % 1000 = 0
  · simp [hmod, Main.zip_and_cleanup, p1]
  · simp [hmod, p1]

/-- Witness for C5 (amended) at the empty batch on the initial state: the
count is 0, divisible by 1000, so an archive call with index 0 and the empty
slice is recorded. -/
theorem archive_trigger_iff_multiple_witness :
    Main.runRows none 0 [] initState = some (initState, []) ∧
      (∃ st2, Main.process_batch none 0 [] initState = some st2 ∧
        st2.zipCalls
          = (if (initState.results.length + ([] : List GeneratedRecord).length) % 1000 = 0 then
              initState.zipCalls ++ [((initState.results.length + ([] : List GeneratedRecord).length) / 1000,
                (initState.results ++ ([] : List GeneratedRecord)).drop
                  (initState.results.length + ([] : List GeneratedRecord).length - 1000))]
            else initState.zipCalls)) :=
  ⟨rfl, archive_trigger_iff_multiple none 0 [] initState initState [] rfl⟩

/-- C10: whenever a batch completes with the cumulative count divisible by
1000 — including a count of exactly 0 and batches that add zero new records —
`process_batch` still invokes `zip_and_cleanup` on the last-1000 slice of the
cumulative sequence, with slice index `count / 1000`, and the archive store
entry for that index is created or overwritten. -/
theorem archive_invoked_at_multiples (posid_idx : Option Nat) (wallid_idx : Nat)
    (rows : List RowInput) (st st1 : PState) (processed : List GeneratedRecord)
    (h : Main.runRows posid_idx wallid_idx rows st = some (st1, processed))
    (hmul : (st.results.length + processed.length) % 1000 = 0) :
    ∃ st2, Main.process_batch posid_idx wallid_idx rows st = some st2 ∧
      st2.zipCalls = st.zipCalls ++ [((st.results.length + processed.length) / 1000,
        (st.results ++ processed).drop (st.results.length + processed.length - 1000))] ∧
      ∃ entries, st2.zipStore
        = st.zipStore.filter (fun e => e.1 != (st.results.length + processed.length) / 1000)
          ++ [((st.results.length + processed.length) / 1000, entries)] := by
  obtain ⟨p1, p2, p3⟩ := Main.runRows_preserves posid_idx wallid_idx rows st st1 processed h
  refine ⟨_, Main.process_batch_eq posid_idx wallid_idx rows st st1 processed h, ?_, ?_⟩
  · rw [p3]
    simp [hmul, Main.zip_and_cleanup, p1]
  · rw [p3, if_pos hmul]
    refine ⟨(Main.zipEntries st1.disk ((st.results ++ processed).drop
        (st.results.length + processed.length - 1000))).2, ?_⟩
    simp [Main.zip_and_cleanup, p2]

/-- Witness for C10 at the empty batch on the initial state (count 0): the
archive for slice index 0 is created, empty. -/
theorem archive_invoked_at_multiples_witness :
    Main.runRows none 0 [] initState = some (initState, []) ∧
      (initState.results.length + ([] : List GeneratedRecord).length) % 1000 = 0 ∧
      (∃ st2, Main.process_batch none 0 [] initState = some st2 ∧
        st2.zipCalls = initState.zipCalls ++ [((initState.results.length + ([] : List GeneratedRecord).length) / 1000,
          (initState.results ++ ([] : List GeneratedRecord)).drop
            (initState.results.length + ([] : List GeneratedRecord).length - 1000))] ∧
        ∃ entries, st2.zipStore
          = initState.zipStore.filter (fun e => e.1 != (initState.results.length + ([] : List GeneratedRecord).length) / 1000)
            ++ [((initState.results.length + ([] : List GeneratedRecord).length) / 1000, entries)]) :=
  ⟨rfl, rfl, archive_invoked_at_multiples none 0 [] initState initState [] rfl rfl⟩

/-! ### Claims C6, C7 and C8 -/

/-- A ragged row with a single cell, shorter than the identifier column. -/
def shortRow : RowInput :=
  { cells := ["only-cell"], gen := "3333333333", synthMsg := "", synthFail := false }

/-- C6 counterexample: for a row with fewer cells than the external-identifier
column index, the row lookup raises IndexError and the exception handler —
which re-reads `row[wallid_idx]` to build the log line — raises again, so the
exception propagates out of `process_row`, and the batch (waiting on
`executor.map`) aborts. -/
theorem process_row_uncaught_short_row :
    Main.process_row none 2 shortRow initState = (initState, RowOutcome.uncaught) ∧
      Main.runRows none 2 [shortRow] initState = none := by
  decide

/-- Extraction succeeds whenever both designated identifier cells exist, and
the extracted external id is the trimmed `wallid` cell. -/
theorem extractIds_some (posid_idx : Option Nat) (wallid_idx : Nat) (row : RowInput)
    (hw : wallid_idx < row.cells.length)
    (hp : ∀ i, posid_idx = some i → i < row.cells.length) :
    ∃ c, Main.extractIds posid_idx wallid_idx row
      = some (pyStrip row.cells[wallid_idx], c) := by
  have hw' : row.cells[wallid_idx]? = some row.cells[wallid_idx] :=
    List.getElem?_eq_getElem hw
  cases posid_idx with
  | none =>
    exact ⟨row.gen, by simp [Main.extractIds, hw']⟩
  | some i =>
    have hpi : i < row.cells.length := hp i rfl
    have hp' : row.cells[i]? = some row.cells[i] :=
      List.getElem?_eq_getElem hpi
    refine ⟨if pyStrip row.cells[i] ≠ ""
        then zfill 6 (pyStrip row.cells[i]) else row.gen, ?_⟩
    simp [Main.extractIds, hw', hp']

/-- C6 (amended): for every row whose designated identifier cells are present
(the external-id cell, and the code-id cell when that column is designated),
no exception propagates out of `process_row`; in particular a failure of image
synthesis is caught, a structured line (the row's raw identifiers and the
exception text) is appended to the error log, and null is returned.  (For a
row missing those cells the handler itself re-raises — see the
counterexample.) -/
theorem process_row_errors_contained (posid_idx : Option Nat) (wallid_idx : Nat)
    (row : RowInput) (st : PState)
    (hw : wallid_idx < row.cells.length)
    (hp : ∀ i, posid_idx = some i → i < row.cells.length) :
    (Main.process_row posid_idx wallid_idx row st).2 ≠ RowOutcome.uncaught ∧
      ((Main.process_row posid_idx wallid_idx row st).2 = RowOutcome.logged →
        (Main.process_row posid_idx wallid_idx row st).1.errorLog
          = st.errorLog ++ [Main.errLine row posid_idx wallid_idx]) := by
  obtain ⟨c, hx⟩ := extractIds_some posid_idx wallid_idx row hw hp
  by_cases hskip : pyStrip row.cells[wallid_idx] = "" ∨ c ∈ st.seen
  · simp [Main.process_row, hx, hskip]
  · cases hs : row.synthFail <;> simp [Main.process_row, hx, hskip, hs]

/-- A complete row whose image synthesis fails. -/
def failingRow : RowInput :=
  { cells := ["E1", "77"], gen := "4444444444", synthMsg := "boom", synthFail := true }

/-- Witness for C6 (amended): a complete two-cell row whose synthesis raises
is logged, not propagated. -/
theorem process_row_errors_contained_witness :
    0 < failingRow.cells.length ∧
      (∀ i, (some 1 : Option Nat) = some i → i < failingRow.cells.length) ∧
      ((Main.process_row (some 1) 0 failingRow initState).2 ≠ RowOutcome.uncaught ∧
        ((Main.process_row (some 1) 0 failingRow initState).2 = RowOutcome.logged →
          (Main.process_row (some 1) 0 failingRow initState).1.errorLog
            = initState.errorLog ++ [Main.errLine failingRow (some 1) 0])) :=
  ⟨by decide, by intro i hi; cases hi; decide,
   process_row_errors_contained (some 1) 0 failingRow initState (by decide)
     (by intro i hi; cases hi; decide)⟩

/-- A row whose external-id cell (index 1) is empty in the secondary
pipeline's column layout (code_id at index 0). -/
def qrEmptyExtRow : RowInput :=
  { cells := ["7", ""], gen := "g", synthMsg := "", synthFail := false }

/-- C7 counterexample: in src/qr_images.py, a row with an EMPTY external-id
cell is NOT rejected: the external id is zero-padded to "00000000000", the
code id is claimed into the seen set, the image file is written, and a record
is produced — three side effects and a non-null return. -/
theorem empty_ext_id_processed_qr_images :
    QrImages.process_row 0 1 qrEmptyExtRow initState
      = ({ initState with seen := ["7"], disk := ["qr-records/qrs/7.png"] },
         RowOutcome.produced
           { code_id := "7", ext_id := "00000000000", qr_code_url := "qrs/7.png" }) := by
  decide

/-- C7 (amended): in the main pipeline (src/main.py), a row whose
external-identifier cell trims to empty is rejected: `process_row` returns
null with zero side effects — nothing is added to the seen set, no file is
written, no error line is appended, no record is produced — provided the
code-id cell lookup does not itself raise.  (In src/qr_images.py the
external id is zero-padded and never checked for emptiness; see the
counterexample.) -/
theorem empty_ext_id_no_side_effects (posid_idx : Option Nat) (wallid_idx : Nat)
    (row : RowInput) (st : PState) (w : String)
    (hw : row.cells.get? wallid_idx = some w) (he : pyStrip w = "")
    (hp : ∀ i, posid_idx = some i → i < row.cells.length) :
    Main.process_row posid_idx wallid_idx row st = (st, RowOutcome.skipped) := by
  obtain ⟨hwlen, hget⟩ := List.get?_eq_some.mp hw
  have hgetw : row.cells[wallid_idx] = w := by
    simpa [List.get_eq_getElem] using hget
  obtain ⟨c, hx⟩ := extractIds_some posid_idx wallid_idx row hwlen hp
  rw [hgetw, he] at hx
  simp [Main.process_row, hx]

/-- A row whose external-id cell is whitespace only (main pipeline layout:
wallid at index 0, posid at index 1). -/
def emptyExtRow : RowInput :=
  { cells := ["  ", "77"], gen := "5555555555", synthMsg := "", synthFail := false }

/-- Witness for C7 (amended) at a concrete whitespace-only external id. -/
theorem empty_ext_id_no_side_effects_witness :
    emptyExtRow.cells.get? 0 = some ("  ") ∧ pyStrip "  " = "" ∧
      (∀ i, (some 1 : Option Nat) = some i → i < emptyExtRow.cells.length) ∧
      Main.process_row (some 1) 0 emptyExtRow initState = (initState, RowOutcome.skipped) :=
  ⟨rfl, by decide, by intro i hi; cases hi; decide,
   empty_ext_id_no_side_effects (some 1) 0 emptyExtRow initState "  " rfl (by decide)
     (by intro i hi; cases hi; decide)⟩

/-- C8: a dedup claim survives a later row failure.  If image synthesis raises
after the claim, the claimed `code_id` stays in the seen set (the claim is not
rolled back), so a later row resolving to the same `code_id` is still rejected
as a duplicate — null, no state change — even though no image or record exists
for that identifier. -/
theorem dedup_claim_survives_failure (posid_idx : Option Nat) (wallid_idx : Nat)
    (row1 row2 : RowInput) (st : PState) (e1 e2 c : String)
    (h1 : Main.extractIds posid_idx wallid_idx row1 = some (e1, c))
    (he1 : e1 ≠ "") (hc : c ∉ st.seen) (hs1 : row1.synthFail = true)
    (h2 : Main.extractIds posid_idx wallid_idx row2 = some (e2, c)) :
    (Main.process_row posid_idx wallid_idx row1 st).2 = RowOutcome.logged ∧
      c ∈ (Main.process_row posid_idx wallid_idx row1 st).1.seen ∧
      Main.process_row posid_idx wallid_idx row2
          (Main.process_row posid_idx wallid_idx row1 st).1
        = ((Main.process_row posid_idx wallid_idx row1 st).1, RowOutcome.skipped) := by
  have hcond : ¬ (e1 = "" ∨ c ∈ st.seen) := by
    rintro (h | h)
    · exact he1 h
    · exact hc h
  refine ⟨?_, ?_, ?_⟩ <;>
    simp [Main.process_row, h1, h2, hcond, hs1, List.mem_cons]

/-- A complete row claiming code id 9 whose synthesis fails. -/
def failRow1 : RowInput :=
  { cells := ["E", "9"], gen := "6666666666", synthMsg := "disk full", synthFail := true }

/-- A later row resolving to the same code id 9, whose synthesis would
succeed. -/
def dupRow2 : RowInput :=
  { cells := ["F", "9"], gen := "7777777777", synthMsg := "", synthFail := false }

/-- Witness for C8 at concrete rows: code id "000009" is claimed by a failing
row and a later duplicate is still rejected. -/
theorem dedup_claim_survives_failure_witness :
    Main.extractIds (some 1) 0 failRow1 = some ("E", "000009") ∧ ("E" : String) ≠ "" ∧
      ("000009" : String) ∉ initState.seen ∧ failRow1.synthFail = true ∧
      Main.extractIds (some 1) 0 dupRow2 = some ("F", "000009") ∧
      ((Main.process_row (some 1) 0 failRow1 initState).2 = RowOutcome.logged ∧
        ("000009" : String) ∈ (Main.process_row (some 1) 0 failRow1 initState).1.seen ∧
        Main.process_row (some 1) 0 dupRow2 (Main.process_row (some 1) 0 failRow1 initState).1
          = ((Main.process_row (some 1) 0 failRow1 initState).1, RowOutcome.skipped)) :=
  ⟨by decide, by decide, by decide, rfl, by decide,
   dedup_claim_survives_failure (some 1) 0 failRow1 dupRow2 initState "E" "F" "000009"
     (by decide) (by decide) (by decide) rfl (by decide)⟩
